import Mathlib

/-!
Verification of the ssh-plugin repository: a shallow embedding of its data
model, envelope codec, orchestrator, dispatchers, metrics protocol and
discovery protocol, with theorems settling the specification claims.

External network and process effects (TCP dial, SSH handshake, sessions,
command execution, the mid-run configuration load) are modelled as explicit
oracle parameters; the pure logic (parsing, command construction, dispatch,
gate ordering, envelope composition, config merging) is translated directly
from the Go source.
-/

namespace SshPlugin

/-! ## Data model (internal/models/models.go) -/

/-- Credentials stores username and password for SSH connection. -/
structure Credentials where
  username : String
  password : String
deriving DecidableEq, Repr

/-- Device represents a device to be monitored or discovered. -/
structure Device where
  id : Int
  ip : String
  systemType : String
  port : Int
  credentials : Credentials
deriving DecidableEq, Repr

/-- MetricsResult: the result of metrics collection. The Go struct's
`PolledAt` wall-clock timestamp is not modelled (set by `time.Now()`);
constructors here set it to the empty string. Metrics is a Go map
`map[string]string`, modelled as an association list with overwrite
semantics. -/
structure MetricsResult where
  id : Int
  success : Bool
  metrics : List (String × String)
  polledAt : String
deriving DecidableEq, Repr

/-- DiscoveryResult: the result of SSH discovery. -/
structure DiscoveryResult where
  id : Int
  success : Bool
  step : String
deriving DecidableEq, Repr

/-- NewMetricsError creates a metrics result with a single "error" entry. -/
def NewMetricsError (id : Int) (errMsg : String) : MetricsResult :=
  ⟨id, false, [("error", errMsg)], ""⟩

/-- NewMetricsSuccess creates a successful metrics result. -/
def NewMetricsSuccess (id : Int) (data : List (String × String)) : MetricsResult :=
  ⟨id, true, data, ""⟩

/-- NewDiscoveryResult creates a discovery result. -/
def NewDiscoveryResult (id : Int) (success : Bool) (step : String) : DiscoveryResult :=
  ⟨id, success, step⟩

/-! ## Constants (internal/constants/constants.go) -/

def DefaultSSHPort : Int := 22

def ErrConnectionFailed : String := "failed to establish SSH connection"
def ErrAuthFailed : String := "authentication failed"
def ErrExecutionFailed : String := "command execution failed"
def ErrTimeout : String := "operation timed out"

/-! ## Go string primitives used by the source

`strings.TrimSpace`, `strings.Split(s, "\n")`, `strings.HasPrefix`,
`strings.HasSuffix`, `strings.TrimPrefix`, `strings.TrimSuffix`,
translated over `List Char` (ASCII whitespace set of Go's `unicode.IsSpace`
restricted to the Latin-1 range actually relevant here). -/

def goIsSpace (c : Char) : Bool :=
  c = ' ' || c = '\t' || c = '\n' || c = '\r' || c = (Char.ofNat 11) || c = (Char.ofNat 12)

/-- strings.TrimSpace on the character list: drop leading and trailing
whitespace. -/
def trimChars (s : List Char) : List Char :=
  ((s.dropWhile goIsSpace).reverse.dropWhile goIsSpace).reverse

/-- strings.TrimPrefix: remove exactly one leading occurrence of p, if
present. -/
def trimPrefixChars (p s : List Char) : List Char :=
  if List.isPrefixOf p s then s.drop p.length else s

/-- strings.TrimSuffix: remove exactly one trailing occurrence of p, if
present. -/
def trimSuffixChars (p s : List Char) : List Char :=
  if List.isSuffixOf p s then s.take (s.length - p.length) else s

/-- strings.Split(s, "\n"): split on every newline; n newlines give n+1
pieces. -/
def splitLines : List Char → List (List Char)
  | [] => [[]]
  | c :: rest =>
    match splitLines rest with
    | [] => [[]]
    | l :: ls => if c = '\n' then [] :: l :: ls else (c :: l) :: ls

/-! ## Metrics output parser (metrics/metrics.go lines 54-72)

The loop state is `currentMetric`; a trimmed line that starts and ends with
`__` is a marker and re-binds `currentMetric` to the text between the
underscores; otherwise, when a metric is open, the trimmed line is stored
as its value and the metric is closed. -/

def markerUnd : List Char := ['_', '_']

/-- The marker test from the source:
`strings.HasPrefix(line, "__") && strings.HasSuffix(line, "__")`. -/
def isMarkerLine (l : List Char) : Bool :=
  List.isPrefixOf markerUnd l && List.isSuffixOf markerUnd l

/-- The name extraction from the source:
`strings.TrimSuffix(strings.TrimPrefix(line, "__"), "__")`. -/
def markerName (l : List Char) : List Char :=
  trimSuffixChars markerUnd (trimPrefixChars markerUnd l)

/-- Go map assignment `m[k] = v`: overwrite the entry if the key exists,
otherwise append it. -/
def mapSet (m : List (List Char × List Char)) (k v : List Char) :
    List (List Char × List Char) :=
  if (m.lookup k).isSome then
    m.map (fun p => if p.1 = k then (k, v) else p)
  else
    m ++ [(k, v)]

/-- The per-line loop of the parser (metrics.go lines 58-66). -/
def parseLoop : List (List Char) → List Char → List (List Char × List Char) →
    List (List Char × List Char)
  | [], _, m => m
  | line :: rest, current, m =>
    let l := trimChars line
    if isMarkerLine l then
      parseLoop rest (markerName l) m
    else if current ≠ [] then
      parseLoop rest [] (mapSet m current l)
    else
      parseLoop rest current m

/-- The whole parse of metrics.go lines 54-66:
`strings.Split(strings.TrimSpace(rawOutput), "\n")`, then the loop with
`currentMetric` initially empty. -/
def parseMetricsOutput (rawOutput : String) : List (String × String) :=
  (parseLoop (splitLines (trimChars rawOutput.data)) [] []).map
    (fun p => (⟨p.1⟩, ⟨p.2⟩))

/-- metrics.go lines 54-72: parse the combined output; an empty parse is
reported as an execution failure, otherwise a success result. -/
def collectFromOutput (deviceId : Int) (rawOutput : String) : MetricsResult :=
  let metrics := parseMetricsOutput rawOutput
  if metrics = [] then NewMetricsError deviceId ErrExecutionFailed
  else NewMetricsSuccess deviceId metrics

/-! ## Parser lemmas -/

theorem isPrefixOf_und (s : List Char) :
    List.isPrefixOf markerUnd ('_' :: '_' :: s) = true := by
  simp [markerUnd, List.isPrefixOf]

theorem isSuffixOf_und (s : List Char) :
    List.isSuffixOf markerUnd (s ++ markerUnd) = true := by
  simp [markerUnd, List.isSuffixOf, List.isPrefixOf]

theorem isMarkerLine_frame (n : List Char) :
    isMarkerLine (markerUnd ++ n ++ markerUnd) = true := by
  have h1 := isPrefixOf_und (n ++ markerUnd)
  have h2 := isSuffixOf_und (markerUnd ++ n)
  simp only [markerUnd] at *
  simp only [isMarkerLine, markerUnd, List.append_assoc, List.cons_append,
    List.nil_append] at *
  simp [h1, h2]

theorem markerName_frame (n : List Char) :
    markerName (markerUnd ++ n ++ markerUnd) = n := by
  have h1 := isPrefixOf_und (n ++ markerUnd)
  have h2 := isSuffixOf_und n
  simp only [markerUnd] at h1 h2
  simp only [markerName, trimPrefixChars, trimSuffixChars, markerUnd,
    List.append_assoc, List.cons_append, List.nil_append]
  simp only [h1, if_true, List.length_cons, List.drop_succ_cons, List.drop_zero]
  simp [h2]

/-- A marker line re-binds the open metric to the framed name. -/
theorem parseLoop_marker (line n : List Char) (rest : List (List Char))
    (cur : List Char) (m : List (List Char × List Char))
    (h : trimChars line = markerUnd ++ n ++ markerUnd) :
    parseLoop (line :: rest) cur m = parseLoop rest n m := by
  simp only [parseLoop, h, isMarkerLine_frame, if_true, markerName_frame]

/-- A non-marker line while a metric is open is captured, trimmed, as that
metric's value, and the metric is closed. -/
theorem parseLoop_capture (line : List Char) (rest : List (List Char))
    (cur : List Char) (m : List (List Char × List Char))
    (hmark : isMarkerLine (trimChars line) = false) (hcur : cur ≠ []) :
    parseLoop (line :: rest) cur m = parseLoop rest [] (mapSet m cur (trimChars line)) := by
  simp [parseLoop, hmark, hcur]

/-- A non-marker line while no metric is open is discarded. -/
theorem parseLoop_discard (line : List Char) (rest : List (List Char))
    (m : List (List Char × List Char))
    (hmark : isMarkerLine (trimChars line) = false) :
    parseLoop (line :: rest) [] m = parseLoop rest [] m := by
  simp [parseLoop, hmark]

/-- C3: the metrics output parser satisfies the framing convention: a marker
line `__name__` opens metric `name` (conjunct 3); the next non-marker line,
trimmed of surrounding whitespace, is captured as that metric's value
(conjunct 4); a metric with no value line before the next marker is left
unset (conjunct 5, where metric `a` is absent); the example input
`__hostname__\nbox1\n__uptime__\nup 3 days` parses to
{hostname: box1, uptime: up 3 days} (conjunct 1); and whenever zero metrics
are parsed the collection returns a failure tagged with the
execution-failed error constant (conjunct 2). -/
theorem metrics_framing_convention :
    parseMetricsOutput "__hostname__\nbox1\n__uptime__\nup 3 days" =
      [("hostname", "box1"), ("uptime", "up 3 days")] ∧
    (∀ deviceId raw, parseMetricsOutput raw = [] →
      collectFromOutput deviceId raw = NewMetricsError deviceId ErrExecutionFailed) ∧
    (∀ line n rest cur m, trimChars line = markerUnd ++ n ++ markerUnd →
      parseLoop (line :: rest) cur m = parseLoop rest n m) ∧
    (∀ line rest cur m, isMarkerLine (trimChars line) = false → cur ≠ [] →
      parseLoop (line :: rest) cur m =
        parseLoop rest [] (mapSet m cur (trimChars line))) ∧
    parseMetricsOutput "__a__\n__b__\nv2" = [("b", "v2")] := by
  refine ⟨by decide, ?_, ?_, ?_, by decide⟩
  · intro deviceId raw h
    simp [collectFromOutput, h]
  · intro line n rest cur m h
    exact parseLoop_marker line n rest cur m h
  · intro line rest cur m h1 h2
    exact parseLoop_capture line rest cur m h1 h2

/-- Witness for C3: concrete instances of the hypothesis-bearing conjuncts. -/
theorem metrics_framing_convention_witness :
    collectFromOutput 7 "no markers" = NewMetricsError 7 ErrExecutionFailed ∧
    parseLoop ["__cpu__".data] [] [] = parseLoop [] "cpu".data [] ∧
    parseLoop [" 3.5 ".data] "cpu".data [] =
      parseLoop [] [] (mapSet [] "cpu".data (trimChars " 3.5 ".data)) :=
  ⟨metrics_framing_convention.2.1 7 "no markers" (by decide),
   metrics_framing_convention.2.2.1 "__cpu__".data "cpu".data [] [] [] (by decide),
   metrics_framing_convention.2.2.2.1 " 3.5 ".data [] "cpu".data [] (by decide)
     (by decide)⟩

/-- C10: in the metrics output parser, every line preceding the first marker
is discarded (conjunct 1, and concretely conjunct 4); for each marker only
the first subsequent non-marker line is captured and further non-marker
lines before the next marker are discarded (conjunct 2: after the capture of
`l1` the state is closed, so `l2` is dropped by conjunct 1); a marker with
empty name (the line `____`) closes the currently open metric without
opening a capturable one, so the following non-marker line is discarded
(conjunct 3 and, concretely, conjunct 5). -/
theorem parser_discard_behaviour :
    (∀ line rest m, isMarkerLine (trimChars line) = false →
      parseLoop (line :: rest) [] m = parseLoop rest [] m) ∧
    (∀ l1 l2 rest cur m, cur ≠ [] → isMarkerLine (trimChars l1) = false →
      isMarkerLine (trimChars l2) = false →
      parseLoop (l1 :: l2 :: rest) cur m =
        parseLoop rest [] (mapSet m cur (trimChars l1))) ∧
    (∀ line rest cur m, trimChars line = "____".data →
      parseLoop (line :: rest) cur m = parseLoop rest [] m) ∧
    parseMetricsOutput "junk\n__m__\nv1\nv2\n__m2__" = [("m", "v1")] ∧
    parseMetricsOutput "__a__\n____\nvalue" = [] := by
  refine ⟨?_, ?_, ?_, by decide, by decide⟩
  · intro line rest m h
    exact parseLoop_discard line rest m h
  · intro l1 l2 rest cur m hcur h1 h2
    rw [parseLoop_capture l1 (l2 :: rest) cur m h1 hcur,
      parseLoop_discard l2 rest _ h2]
  · intro line rest cur m h
    have : trimChars line = markerUnd ++ [] ++ markerUnd := by
      rw [h]; decide
    exact parseLoop_marker line [] rest cur m this

/-- Witness for C10: concrete instances of the hypothesis-bearing conjuncts. -/
theorem parser_discard_behaviour_witness :
    parseLoop ["junk".data] [] [] = parseLoop [] [] [] ∧
    parseLoop [" v1 ".data, "v2".data] "m".data [] =
      parseLoop [] [] (mapSet [] "m".data (trimChars " v1 ".data)) ∧
    parseLoop ["____".data] "a".data [] = parseLoop [] [] [] :=
  ⟨parser_discard_behaviour.1 "junk".data [] [] (by decide),
   parser_discard_behaviour.2.1 " v1 ".data "v2".data [] "m".data [] (by decide)
     (by decide) (by decide),
   parser_discard_behaviour.2.2.1 "____".data [] "a".data [] (by decide)⟩

/-! ## Network effect model

The network side effects of utils.go (TCP probe, SSH dial, session opening,
command execution) are modelled by an oracle `NetWorld`; each operation a
device task performs is recorded as a `NetCall`, so that theorems can speak
about which network operations were attempted, with which target and
timeout. -/

/-- One observable network operation. -/
inductive NetCall
  | tcpProbe (ip : String) (port : Int) (timeout : Nat)
  | sshDial (ip : String) (port : Int) (timeout : Nat)
  | session
  | runCmd (cmd : String)
deriving DecidableEq, Repr

/-- Oracle for the network: outcome of the TCP probe, of `ssh.Dial`, of
`client.NewSession()` and of running a command in a session. -/
structure NetWorld where
  probe : String → Int → Nat → Bool
  dial : String → Int → Nat → Except String Unit
  newSession : Except String Unit
  runCmd : String → Except String String

/-- utils.go lines 106-109: use the default SSH port when the device's port
is unset (0). -/
def effectivePort (devicePort : Int) : Int :=
  if devicePort = 0 then DefaultSSHPort else devicePort

/-- strings.Contains: does `s` contain `sub` as a contiguous substring? -/
def containsSub (sub : List Char) : List Char → Bool
  | [] => sub.isEmpty
  | c :: rest => List.isPrefixOf sub (c :: rest) || containsSub sub rest

/-- utils.go lines 124-134: classify a dial failure by substring of its
error text (diagnostic labelling only). -/
def classifyDialError (e : String) : String :=
  if containsSub "timeout".data e.data then ErrTimeout ++ ": " ++ e
  else if containsSub "authentication".data e.data then ErrAuthFailed ++ ": " ++ e
  else ErrConnectionFailed ++ ": " ++ e

/-- CreateSSHClient (utils.go lines 96-137): dial `ip:port` with the
effective port and the configured timeout; classify failures. The returned
trace records the attempted dial. -/
def CreateSSHClient (w : NetWorld) (device : Device) (timeout : Nat) :
    Except String Unit × List NetCall :=
  match w.dial device.ip (effectivePort device.port) timeout with
  | .ok _ => (.ok (), [.sshDial device.ip (effectivePort device.port) timeout])
  | .error e =>
    (.error (classifyDialError e), [.sshDial device.ip (effectivePort device.port) timeout])

/-- ExecuteCommand (utils.go lines 141-162): open a session, run the
command, capture combined output, trim trailing whitespace. -/
def ExecuteCommand (w : NetWorld) (command : String) :
    Except String String × List NetCall :=
  match w.newSession with
  | .error e => (.error ("failed to create session: " ++ e), [.session])
  | .ok _ =>
    match w.runCmd command with
    | .error e => (.error (ErrExecutionFailed ++ ": " ++ e), [.session, .runCmd command])
    | .ok out => (.ok ⟨trimChars out.data⟩, [.session, .runCmd command])

/-! ## Discovery protocol (discovery/discovery.go lines 14-47) -/

/-- PerformDiscovery: the four ordered gates. The TCP probe uses the raw
`device.Port` and half the timeout; the SSH dial goes through
CreateSSHClient (effective port, full timeout); then a session is opened
and `uptime` is run. The first failing gate short-circuits with its name;
the trace records the operations actually attempted. -/
def PerformDiscovery (w : NetWorld) (device : Device) (timeout : Nat) :
    DiscoveryResult × List NetCall :=
  let probeCall := NetCall.tcpProbe device.ip device.port (timeout / 2)
  if !(w.probe device.ip device.port (timeout / 2)) then
    (NewDiscoveryResult device.id false "port", [probeCall])
  else
    match CreateSSHClient w device timeout with
    | (.error _, dialCalls) =>
      (NewDiscoveryResult device.id false "sshAuth", probeCall :: dialCalls)
    | (.ok _, dialCalls) =>
      match w.newSession with
      | .error _ =>
        (NewDiscoveryResult device.id false "session",
          probeCall :: dialCalls ++ [.session])
      | .ok _ =>
        match w.runCmd "uptime" with
        | .error _ =>
          (NewDiscoveryResult device.id false "uptime",
            probeCall :: dialCalls ++ [.session, .runCmd "uptime"])
        | .ok _ =>
          (NewDiscoveryResult device.id true "",
            probeCall :: dialCalls ++ [.session, .runCmd "uptime"])

/-! ## Metrics collection (metrics/metrics.go lines 18-73)

The combined command construction and output parse are pure; the SSH
effects come from the NetWorld and the mid-run `config.LoadConfig()` call
of line 32 is modelled by an extra oracle, since its result is read from
the configuration file during the run. -/

/-- Configuration snapshot (config/config.go). -/
structure Config where
  sshTimeout : Int
  metricsCommands : List (String × String)
  encryptionKey : String
deriving DecidableEq, Repr

/-- metrics.go line 42: `fmt.Sprintf("echo '__%s__'; %s", name, cmd)`. -/
def buildFragment (name cmd : String) : String :=
  "echo \x27__" ++ name ++ "__\x27; " ++ cmd

/-- metrics.go lines 38-45: one fragment per configured metric, joined with
`" && "` into a single command line. -/
def buildFinalCommand (commands : List (String × String)) : String :=
  String.intercalate " && " (commands.map (fun p => buildFragment p.1 p.2))

/-- The world seen by CollectMetrics: the network oracle plus the outcome
of the `config.LoadConfig()` call it performs itself mid-run. -/
structure MetricsWorld where
  net : NetWorld
  loadConfig : Except String Config

/-- CollectMetrics for Linux: connect, re-load the configuration, build the
single combined command, execute it, parse the output. -/
def CollectMetrics (w : MetricsWorld) (device : Device) (timeout : Nat) :
    MetricsResult × List NetCall :=
  match CreateSSHClient w.net device timeout with
  | (.error e, calls) =>
    (NewMetricsError device.id ("SSH connection error: " ++ e), calls)
  | (.ok _, calls) =>
    match w.loadConfig with
    | .error e => (NewMetricsError device.id ("Config load error: " ++ e), calls)
    | .ok cfg =>
      let finalCommand := buildFinalCommand cfg.metricsCommands
      match ExecuteCommand w.net finalCommand with
      | (.error e, calls2) =>
        (NewMetricsError device.id ("Command execution error: " ++ e), calls ++ calls2)
      | (.ok rawOutput, calls2) =>
        (collectFromOutput device.id rawOutput, calls ++ calls2)

/-! ## System-type dispatchers (metrics/types.go, and the discovery
dispatcher of the cmd package) -/

inductive MetricsCollector
  | linux
  | unsupported (systemType : String)
deriving DecidableEq, Repr

/-- GetMetricsCollector: "linux" maps to the concrete collector, everything
else to the catch-all variant. -/
def GetMetricsCollector (systemType : String) : MetricsCollector :=
  if systemType = "linux" then .linux else .unsupported systemType

/-- Collect: the Linux variant runs CollectMetrics; the unsupported variant
immediately returns a failure naming the system type, touching no network
oracle (empty trace). -/
def MetricsCollector.Collect :
    MetricsCollector → MetricsWorld → Device → Nat → MetricsResult × List NetCall
  | .linux, w, device, timeout => CollectMetrics w device timeout
  | .unsupported st, _, device, _ =>
    (NewMetricsError device.id ("unsupported system type: " ++ st), [])

inductive DiscoveryPerformer
  | linux
  | unsupported (systemType : String)
deriving DecidableEq, Repr

/-- GetDiscoveryPerformer: "linux" maps to the concrete performer,
everything else to the catch-all variant. -/
def GetDiscoveryPerformer (systemType : String) : DiscoveryPerformer :=
  if systemType = "linux" then .linux else .unsupported systemType

/-- Perform: the Linux variant runs PerformDiscovery; the unsupported
variant immediately returns a failure naming the system type, touching no
network oracle (empty trace). -/
def DiscoveryPerformer.Perform :
    DiscoveryPerformer → NetWorld → Device → Nat → DiscoveryResult × List NetCall
  | .linux, w, device, timeout => PerformDiscovery w device timeout
  | .unsupported st, _, device, _ =>
    (NewDiscoveryResult device.id false ("unsupported system type: " ++ st), [])

/-! ## Discovery gate theorems (C4) -/

/-- C4: PerformDiscovery runs the gates port, sshAuth, session, uptime in
that strict order. The result ID is the device's; the step is always one of
the five fixed strings, so no raw error text from any oracle is surfaced;
success holds exactly when the step is empty; the first attempted call is
the TCP probe with budget `timeout / 2`; and each failing gate
short-circuits: the result names that gate and the trace stops there, so
later gates are never attempted. Full success yields step `""` with all
four gates attempted. -/
theorem discovery_gate_progression (w : NetWorld) (d : Device) (t : Nat) :
    ((PerformDiscovery w d t).1.id = d.id) ∧
    ((PerformDiscovery w d t).1.step = "" ∨ (PerformDiscovery w d t).1.step = "port" ∨
      (PerformDiscovery w d t).1.step = "sshAuth" ∨
      (PerformDiscovery w d t).1.step = "session" ∨
      (PerformDiscovery w d t).1.step = "uptime") ∧
    ((PerformDiscovery w d t).1.success = true ↔ (PerformDiscovery w d t).1.step = "") ∧
    ((PerformDiscovery w d t).2.head? = some (.tcpProbe d.ip d.port (t / 2))) ∧
    (w.probe d.ip d.port (t / 2) = false →
      PerformDiscovery w d t =
        (⟨d.id, false, "port"⟩, [.tcpProbe d.ip d.port (t / 2)])) ∧
    (∀ e, w.probe d.ip d.port (t / 2) = true →
      w.dial d.ip (effectivePort d.port) t = .error e →
      PerformDiscovery w d t =
        (⟨d.id, false, "sshAuth"⟩,
          [.tcpProbe d.ip d.port (t / 2), .sshDial d.ip (effectivePort d.port) t])) ∧
    (∀ e, w.probe d.ip d.port (t / 2) = true →
      w.dial d.ip (effectivePort d.port) t = .ok () → w.newSession = .error e →
      PerformDiscovery w d t =
        (⟨d.id, false, "session"⟩,
          [.tcpProbe d.ip d.port (t / 2), .sshDial d.ip (effectivePort d.port) t,
            .session])) ∧
    (∀ e, w.probe d.ip d.port (t / 2) = true →
      w.dial d.ip (effectivePort d.port) t = .ok () → w.newSession = .ok () →
      w.runCmd "uptime" = .error e →
      PerformDiscovery w d t =
        (⟨d.id, false, "uptime"⟩,
          [.tcpProbe d.ip d.port (t / 2), .sshDial d.ip (effectivePort d.port) t,
            .session, .runCmd "uptime"])) ∧
    (∀ out, w.probe d.ip d.port (t / 2) = true →
      w.dial d.ip (effectivePort d.port) t = .ok () → w.newSession = .ok () →
      w.runCmd "uptime" = .ok out →
      PerformDiscovery w d t =
        (⟨d.id, true, ""⟩,
          [.tcpProbe d.ip d.port (t / 2), .sshDial d.ip (effectivePort d.port) t,
            .session, .runCmd "uptime"])) := by
  unfold PerformDiscovery CreateSSHClient
  rcases hp : w.probe d.ip d.port (t / 2) with _ | _ <;>
    rcases hd : w.dial d.ip (effectivePort d.port) t with e | u <;>
    rcases hs : w.newSession with e2 | u2 <;>
    rcases hu : w.runCmd "uptime" with e3 | out <;>
    simp [hp, hd, hs, hu, NewDiscoveryResult]

/-- Sample device for concrete instantiations. -/
def sampleDevice : Device := ⟨1, "10.0.0.5", "linux", 2222, ⟨"admin", "pw"⟩⟩

/-- A world where the port is reachable but SSH authentication fails. -/
def authFailWorld : NetWorld :=
  { probe := fun _ _ _ => true
    dial := fun _ _ _ => .error "ssh: unable to authenticate"
    newSession := .ok ()
    runCmd := fun _ => .ok "up 3 days" }

/-- Witness for C4: in a world whose dial fails, discovery of the sample
device stops at the sshAuth gate, with only the probe and the dial
attempted. -/
theorem discovery_gate_progression_witness :
    PerformDiscovery authFailWorld sampleDevice 10 =
      (⟨1, false, "sshAuth"⟩,
        [.tcpProbe "10.0.0.5" 2222 5, .sshDial "10.0.0.5" 2222 10]) :=
  (discovery_gate_progression authFailWorld sampleDevice 10).2.2.2.2.2.1
    "ssh: unable to authenticate" rfl rfl

/-! ## Dispatcher theorems (C5) -/

/-- C5: for every system type other than "linux", both dispatchers select
the catch-all variant; its single operation performs no network operation
(empty trace) and immediately returns a failure result whose message names
the unsupported system type and whose ID is the device's ID. -/
theorem unsupported_type_dispatch (st : String) (hst : st ≠ "linux")
    (mw : MetricsWorld) (w : NetWorld) (d : Device) (t : Nat) :
    GetMetricsCollector st = .unsupported st ∧
    GetDiscoveryPerformer st = .unsupported st ∧
    (GetMetricsCollector st).Collect mw d t =
      (NewMetricsError d.id ("unsupported system type: " ++ st), []) ∧
    (GetDiscoveryPerformer st).Perform w d t =
      (NewDiscoveryResult d.id false ("unsupported system type: " ++ st), []) ∧
    ((GetMetricsCollector st).Collect mw d t).1.success = false ∧
    ((GetMetricsCollector st).Collect mw d t).1.id = d.id ∧
    ((GetDiscoveryPerformer st).Perform w d t).1.success = false ∧
    ((GetDiscoveryPerformer st).Perform w d t).1.id = d.id := by
  have hm : GetMetricsCollector st = .unsupported st := by
    simp [GetMetricsCollector, hst]
  have hd : GetDiscoveryPerformer st = .unsupported st := by
    simp [GetDiscoveryPerformer, hst]
  refine ⟨hm, hd, ?_, ?_, ?_, ?_, ?_, ?_⟩ <;>
    simp [hm, hd, MetricsCollector.Collect, DiscoveryPerformer.Perform,
      NewMetricsError, NewDiscoveryResult]

/-- Witness for C5: a "windows" device is dispatched to the catch-all
variants, which fail with the type name in the message and perform no
network calls. -/
theorem unsupported_type_dispatch_witness :
    (GetMetricsCollector "windows").Collect
        ⟨authFailWorld, .ok ⟨5, [], ""⟩⟩ sampleDevice 10 =
      (NewMetricsError 1 "unsupported system type: windows", []) ∧
    (GetDiscoveryPerformer "windows").Perform authFailWorld sampleDevice 10 =
      (NewDiscoveryResult 1 false "unsupported system type: windows", []) :=
  ⟨(unsupported_type_dispatch "windows" (by decide)
      ⟨authFailWorld, .ok ⟨5, [], ""⟩⟩ authFailWorld sampleDevice 10).2.2.1,
   (unsupported_type_dispatch "windows" (by decide)
      ⟨authFailWorld, .ok ⟨5, [], ""⟩⟩ authFailWorld sampleDevice 10).2.2.2.1⟩

/-! ## Port defaulting (C6) -/

/-- Counterexample to C6 as stated: for a device whose port field is 0, the
discovery TCP reachability probe targets port 0 — the raw field value — and
not the default 22, while the SSH dial of the same run does target 22. -/
theorem discovery_probe_raw_port_counterexample :
    (PerformDiscovery authFailWorld ⟨2, "10.0.0.9", "linux", 0, ⟨"u", "p"⟩⟩ 10).2 =
      [.tcpProbe "10.0.0.9" 0 5, .sshDial "10.0.0.9" 22 10] ∧
    NetCall.tcpProbe "10.0.0.9" (0 : Int) 5 ≠ .tcpProbe "10.0.0.9" 22 5 := by
  constructor
  · rfl
  · decide

/-- C6 amended: for a device whose port field is 0, the SSH transport
connections (metrics and discovery) target the default port 22, but the
discovery TCP reachability probe uses the raw port value 0. -/
theorem port_default_applies_to_ssh_only (d : Device) (hd : d.port = 0)
    (w : NetWorld) (mw : MetricsWorld) (t : Nat) :
    effectivePort d.port = 22 ∧
    (CreateSSHClient w d t).2 = [.sshDial d.ip 22 t] ∧
    (PerformDiscovery w d t).2.head? = some (.tcpProbe d.ip 0 (t / 2)) ∧
    (∀ ip p tt, NetCall.sshDial ip p tt ∈ (PerformDiscovery w d t).2 → p = 22) ∧
    (∀ ip p tt, NetCall.sshDial ip p tt ∈ (CollectMetrics mw d t).2 → p = 22) := by
  have hE : effectivePort d.port = 22 := by
    simp [effectivePort, hd, DefaultSSHPort]
  have hcalls : ∀ w' : NetWorld, (CreateSSHClient w' d t).2 = [.sshDial d.ip 22 t] := by
    intro w'
    unfold CreateSSHClient
    rcases hdial : w'.dial d.ip (effectivePort d.port) t with e | u <;> simp [hdial, hE]
  refine ⟨hE, hcalls w, ?_, ?_, ?_⟩
  · unfold PerformDiscovery
    rcases hp : w.probe d.ip d.port (t / 2) with _ | _
    · simp [hp, hd]
    · rcases hc : CreateSSHClient w d t with ⟨res, calls⟩
      rcases res with e | u <;>
        rcases hs : w.newSession with e2 | u2 <;>
        rcases hu : w.runCmd "uptime" with e3 | out <;>
        simp [hp, hc, hs, hu, hd]
  · intro ip p tt hmem
    unfold PerformDiscovery at hmem
    rcases hc : CreateSSHClient w d t with ⟨res, calls⟩
    have hcl : calls = [.sshDial d.ip 22 t] := by
      have h := hcalls w; rw [hc] at h; exact h
    rcases hp : w.probe d.ip d.port (t / 2) with _ | _ <;>
      rcases res with e | u <;>
      rcases hs : w.newSession with e2 | u2 <;>
      rcases hu : w.runCmd "uptime" with e3 | out <;>
      simp [hp, hc, hs, hu, hcl] at hmem <;>
      simp [hmem]
  · intro ip p tt hmem
    unfold CollectMetrics at hmem
    rcases hc : CreateSSHClient mw.net d t with ⟨res, calls⟩
    have hcl : calls = [.sshDial d.ip 22 t] := by
      have h := hcalls mw.net; rw [hc] at h; exact h
    rcases hcfg : mw.loadConfig with e1 | cfg <;>
      rcases res with e | u <;>
      rcases hex1 : mw.net.newSession with e2 | u2 <;>
      simp [hc, hcfg, hcl, ExecuteCommand] at hmem
    all_goals try simp [hmem]
    all_goals
      rcases hrun : mw.net.runCmd (buildFinalCommand cfg.metricsCommands) with e3 | out <;>
        simp [hex1, hrun] at hmem <;>
        simp [hmem]

/-- Witness for the amended C6: a port-0 device dials SSH on 22 while its
discovery probe targets port 0. -/
theorem port_default_applies_to_ssh_only_witness :
    (CreateSSHClient authFailWorld ⟨3, "h", "linux", 0, ⟨"u", "p"⟩⟩ 10).2 =
      [.sshDial "h" 22 10] ∧
    (PerformDiscovery authFailWorld ⟨3, "h", "linux", 0, ⟨"u", "p"⟩⟩ 10).2.head? =
      some (.tcpProbe "h" 0 5) :=
  ⟨(port_default_applies_to_ssh_only ⟨3, "h", "linux", 0, ⟨"u", "p"⟩⟩ rfl
      authFailWorld ⟨authFailWorld, .ok ⟨5, [], ""⟩⟩ 10).2.1,
   (port_default_applies_to_ssh_only ⟨3, "h", "linux", 0, ⟨"u", "p"⟩⟩ rfl
      authFailWorld ⟨authFailWorld, .ok ⟨5, [], ""⟩⟩ 10).2.2.1⟩

/-! ## Fragment-level shell semantics of the combined command (C7)

The source joins fragments `echo '__name__'; cmd` with `" && "`. In POSIX
shell `;` binds looser than `&&`, so the joined line
`echo1; c1 && echo2; c2 && echo3; c3` runs as
`echo1`, `(c1 && echo2)`, `(c2 && echo3)`, `c3`: every metric command runs,
but the marker echo of every fragment after the first runs only when the
preceding fragment's command exited successfully. The oracle `env` maps a
command to its exit status and its output lines. -/

def markerLineOf (name : String) : String := "__" ++ name ++ "__"

def runRest (env : String → Bool × List String) :
    Bool → List (String × String) → List String
  | _, [] => []
  | prevOk, (name, cmd) :: rest =>
    (if prevOk then [markerLineOf name] else []) ++ (env cmd).2 ++
      runRest env (env cmd).1 rest

/-- Output lines of the source's combined command under `env`: the first
fragment's echo is unconditional. -/
def runCombined (env : String → Bool × List String)
    (cmds : List (String × String)) : List String :=
  runRest env true cmds

/-- One marker line per fragment whose predecessor's command succeeded (the
first fragment's marker unconditionally). -/
def survivingMarkers (env : String → Bool × List String) :
    Bool → List (String × String) → List String
  | _, [] => []
  | prevOk, (name, cmd) :: rest =>
    (if prevOk then [markerLineOf name] else []) ++
      survivingMarkers env (env cmd).1 rest

theorem isMarkerLine_markerLineOf (n : String) :
    isMarkerLine (markerLineOf n).data = true := by
  have h : (markerLineOf n).data = markerUnd ++ n.data ++ markerUnd := by
    simp [markerLineOf, markerUnd]
  rw [h]
  exact isMarkerLine_frame n.data

/-- A fixed environment in which command c1 fails with no output and every
other command succeeds printing one line. -/
def condEnv : String → Bool × List String :=
  fun c => if c = "c1" then (false, []) else (true, ["out"])

/-- Counterexample to C7 as stated: the fragments are joined with `" && "`,
which is not an unconditional sequencing operator. With two configured
metrics m1 and m2 where m1's command fails, the marker of fragment m2 never
appears in the combined output, although ("m2", "c2") is one of the
configured fragments — so not every fragment runs regardless of the
previous fragment's exit status. -/
theorem join_not_unconditional_counterexample :
    buildFinalCommand [("m1", "c1"), ("m2", "c2")] =
      "echo \x27__m1__\x27; c1 && echo \x27__m2__\x27; c2" ∧
    ("m2", "c2") ∈ [("m1", "c1"), ("m2", "c2")] ∧
    markerLineOf "m2" ∉ runCombined condEnv [("m1", "c1"), ("m2", "c2")] ∧
    runCombined condEnv [("m1", "c1"), ("m2", "c2")] = [markerLineOf "m1", "out"] := by
  refine ⟨by decide, by decide, by decide, by decide⟩

theorem filter_runRest (env : String → Bool × List String)
    (cmds : List (String × String))
    (henv : ∀ p ∈ cmds, ∀ l ∈ (env p.2).2, isMarkerLine l.data = false) :
    ∀ b, (runRest env b cmds).filter (fun l => isMarkerLine l.data) =
      survivingMarkers env b cmds := by
  induction cmds with
  | nil => intro b; simp [runRest, survivingMarkers]
  | cons head tail ih =>
    intro b
    obtain ⟨name, cmd⟩ := head
    have hhead := henv (name, cmd) (by simp)
    have htail : ∀ p ∈ tail, ∀ l ∈ (env p.2).2, isMarkerLine l.data = false :=
      fun p hp => henv p (by simp [hp])
    have h1 : List.filter (fun l => isMarkerLine l.data) (env cmd).2 = [] := by
      rw [List.filter_eq_nil_iff]
      intro l hl
      simp [hhead l hl]
    simp only [runRest, survivingMarkers, List.filter_append, ih htail]
    cases b <;> simp [h1, isMarkerLine_markerLineOf]

theorem survivingMarkers_all_ok (env : String → Bool × List String)
    (cmds : List (String × String))
    (hall : ∀ p ∈ cmds, (env p.2).1 = true) :
    survivingMarkers env true cmds = cmds.map (fun p => markerLineOf p.1) := by
  induction cmds with
  | nil => simp [survivingMarkers]
  | cons head tail ih =>
    obtain ⟨name, cmd⟩ := head
    have hh : (env cmd).1 = true := hall (name, cmd) (by simp)
    simp [survivingMarkers, hh, ih (fun p hp => hall p (by simp [hp]))]

/-- C7 corrected: the collector builds exactly one combined command line,
one fragment `echo '__name__'; cmd` per configured metric, joined with the
conditional `" && "` operator. Under the fragment semantics the marker
lines appearing in the output are exactly those of fragments whose
predecessor's command succeeded (the first fragment's marker always
appears); in particular when every command succeeds, every configured
metric's marker appears, in order. -/
theorem combined_command_join (env : String → Bool × List String)
    (cmds : List (String × String))
    (henv : ∀ p ∈ cmds, ∀ l ∈ (env p.2).2, isMarkerLine l.data = false) :
    buildFinalCommand cmds =
      String.intercalate " && " (cmds.map (fun p => buildFragment p.1 p.2)) ∧
    (runCombined env cmds).filter (fun l => isMarkerLine l.data) =
      survivingMarkers env true cmds ∧
    ((∀ p ∈ cmds, (env p.2).1 = true) →
      survivingMarkers env true cmds = cmds.map (fun p => markerLineOf p.1)) :=
  ⟨rfl, filter_runRest env cmds henv true,
   fun hall => survivingMarkers_all_ok env cmds hall⟩

/-- Witness for the corrected C7: under `condEnv` (c1 fails), the marker
lines surviving in the combined output are exactly the computed surviving
markers — here only m1's. -/
theorem combined_command_join_witness :
    (runCombined condEnv [("m1", "c1"), ("m2", "c2")]).filter
        (fun l => isMarkerLine l.data) =
      survivingMarkers condEnv true [("m1", "c1"), ("m2", "c2")] :=
  (combined_command_join condEnv [("m1", "c1"), ("m2", "c2")] (by decide)).2.1

/-! ## Mid-run configuration reload (C8) -/

/-- A world where every connection succeeds and the executed command's
output is echoed back after one marker line. -/
def echoWorld : NetWorld :=
  { probe := fun _ _ _ => true
    dial := fun _ _ _ => .ok ()
    newSession := .ok ()
    runCmd := fun c => .ok ("__x__\n" ++ c) }

/-- C8 fails on the source: CollectMetrics calls `config.LoadConfig()`
itself (metrics.go line 32) and builds its command line from that mid-run
load, so two runs with the same device, timeout and startup snapshot but
different configuration-file contents during the run behave differently.
Here the startup snapshot only contributes the timeout (5 in both runs);
only the mid-run load differs, and the results differ. -/
theorem collect_metrics_depends_on_reload :
    (CollectMetrics ⟨echoWorld, .ok ⟨5, [("m", "c1")], ""⟩⟩ sampleDevice 5).1 ≠
      (CollectMetrics ⟨echoWorld, .ok ⟨5, [("m", "c2")], ""⟩⟩ sampleDevice 5).1 ∧
    (CollectMetrics ⟨echoWorld, .ok ⟨5, [("m", "c1")], ""⟩⟩ sampleDevice 5).1 =
      NewMetricsSuccess 1 [("x", "echo \x27__m__\x27; c1")] ∧
    (CollectMetrics ⟨echoWorld, .ok ⟨5, [("m", "c2")], ""⟩⟩ sampleDevice 5).1 =
      NewMetricsSuccess 1 [("x", "echo \x27__m__\x27; c2")] :=
  ⟨by decide, by decide, by decide⟩

/-! ## Envelope codec (cmd/main.go lines 85-148 and 275-303)

Bytes are lists of naturals. The external primitives (base64, Snappy,
AES-256-GCM, JSON) are abstract parameters carrying their round-trip laws;
the composition — key check, hex key decode, nonce split at 12 bytes,
order of the stages — is translated from the source. -/

/-- encoding/hex digit value. -/
def hexDigitVal (c : Char) : Option Nat :=
  if '0' ≤ c ∧ c ≤ '9' then some (c.toNat - '0'.toNat)
  else if 'a' ≤ c ∧ c ≤ 'f' then some (c.toNat - 'a'.toNat + 10)
  else if 'A' ≤ c ∧ c ≤ 'F' then some (c.toNat - 'A'.toNat + 10)
  else none

/-- encoding/hex DecodeString: pairs of hex digits; odd length or an
invalid digit is an error. -/
def hexDecodeList : List Char → Option (List Nat)
  | [] => some []
  | [_] => none
  | a :: b :: rest =>
    match hexDigitVal a, hexDigitVal b, hexDecodeList rest with
    | some hi, some lo, some bs => some ((16 * hi + lo) :: bs)
    | _, _, _ => none

def hexDecode (s : String) : Option (List Nat) := hexDecodeList s.data

/-- crypto/aes NewCipher accepts keys of 16, 24 or 32 bytes. -/
def aesKeyLenOk (key : List Nat) : Bool :=
  key.length = 16 || key.length = 24 || key.length = 32

/-- Abstract external primitives of the envelope with their round-trip
laws. `gcmSeal key nonce plaintext` is the ciphertext (tag included);
`gcmOpen` inverts it under the same key and nonce. -/
structure EnvelopePrims where
  b64encode : List Nat → List Nat
  b64decode : List Nat → Option (List Nat)
  snappyEncode : List Nat → List Nat
  snappyDecode : List Nat → Option (List Nat)
  gcmSeal : List Nat → List Nat → List Nat → List Nat
  gcmOpen : List Nat → List Nat → List Nat → Option (List Nat)
  jsonMarshalDevices : List Device → List Nat
  jsonUnmarshalDevices : List Nat → Option (List Device)
  b64_rt : ∀ b, b64decode (b64encode b) = some b
  snappy_rt : ∀ b, snappyDecode (snappyEncode b) = some b
  gcm_rt : ∀ k n p, gcmOpen k n (gcmSeal k n p) = some p
  json_rt : ∀ ds, jsonUnmarshalDevices (jsonMarshalDevices ds) = some ds

/-- decryptAndDecompressFile (cmd/main.go lines 85-148). The file read is a
parameter (`fileContent`); the empty-key check comes first, before the file
is consulted; then base64 decode, the 12-byte nonce split, the hex key
decode, the AES key-length check, GCM open, Snappy decompress, JSON
parse. -/
def decryptAndDecompressFile (P : EnvelopePrims) (keyHex : String)
    (fileContent : Except String (List Nat)) : Except String (List Device) :=
  if keyHex = "" then .error "encryption key not found in config"
  else
    match fileContent with
    | .error e => .error ("failed to read file: " ++ e)
    | .ok base64Content =>
      match P.b64decode base64Content with
      | none => .error "base64 decode error"
      | some decodedBytes =>
        if decodedBytes.length < 12 then .error "data too short: missing nonce"
        else
          let nonce := decodedBytes.take 12
          let ciphertext := decodedBytes.drop 12
          match hexDecode keyHex with
          | none => .error "invalid hex key"
          | some key =>
            if !aesKeyLenOk key then .error "AES cipher creation failed"
            else
              match P.gcmOpen key nonce ciphertext with
              | none => .error "AES-GCM decryption failed"
              | some compressed =>
                match P.snappyDecode compressed with
                | none => .error "snappy decompress failed"
                | some decompressed =>
                  match P.jsonUnmarshalDevices decompressed with
                  | none => .error "JSON unmarshal failed"
                  | some devices => .ok devices

/-- The encode pipeline of encodeResult (cmd/main.go lines 275-303) applied
to a Device list, as in the round-trip property: serialize,
Snappy-compress, AES-GCM seal under the given nonce, prepend the nonce,
base64-encode. The fresh random 12-byte nonce of the source is the `nonce`
parameter. -/
def encodeDevices (P : EnvelopePrims) (key nonce : List Nat)
    (devices : List Device) : Except String (List Nat) :=
  let plaintext := P.jsonMarshalDevices devices
  let compressed := P.snappyEncode plaintext
  if !aesKeyLenOk key then .error "cipher error"
  else
    let encrypted := P.gcmSeal key nonce compressed
    .ok (P.b64encode (nonce ++ encrypted))

/-- C2: encoding a Device list with the envelope codec and decoding it
under the same correct key returns the same list. The key is a non-empty
valid hex string for an AES key of accepted length, and the nonce has the
GCM nonce size of 12 bytes. -/
theorem envelope_roundtrip (P : EnvelopePrims) (keyHex : String)
    (key nonce : List Nat) (devices : List Device) (encoded : List Nat)
    (hkey : keyHex ≠ "") (hhex : hexDecode keyHex = some key)
    (hklen : aesKeyLenOk key = true) (hnonce : nonce.length = 12)
    (henc : encodeDevices P key nonce devices = .ok encoded) :
    decryptAndDecompressFile P keyHex (.ok encoded) = .ok devices := by
  unfold encodeDevices at henc
  rw [hklen] at henc
  simp only [Bool.not_true, Bool.false_eq_true, if_false] at henc
  have hencEq : encoded =
      P.b64encode (nonce ++ P.gcmSeal key nonce (P.snappyEncode (P.jsonMarshalDevices devices))) := by
    cases henc
    rfl
  subst hencEq
  have hlen : ¬((nonce ++ P.gcmSeal key nonce (P.snappyEncode (P.jsonMarshalDevices devices))).length < 12) := by
    simp [hnonce]
  have htake : (nonce ++ P.gcmSeal key nonce (P.snappyEncode (P.jsonMarshalDevices devices))).take 12 = nonce := by
    rw [← hnonce]
    exact List.take_left nonce _
  have hdrop : (nonce ++ P.gcmSeal key nonce (P.snappyEncode (P.jsonMarshalDevices devices))).drop 12 = P.gcmSeal key nonce (P.snappyEncode (P.jsonMarshalDevices devices)) := by
    rw [← hnonce]
    exact List.drop_left nonce _
  unfold decryptAndDecompressFile
  rw [if_neg hkey]
  simp only [P.b64_rt]
  rw [if_neg hlen]
  simp only [htake, hdrop, hhex, hklen, Bool.not_true, Bool.false_eq_true,
    if_false, P.gcm_rt, P.snappy_rt, P.json_rt]

/-! ### A concrete lawful instance of the envelope primitives

Base64, Snappy and GCM are instantiated by identities (which satisfy their
round-trip laws); the JSON marshalling of Device lists is instantiated by a
small injective serializer with an explicit inverse, so the round-trip
theorem can be evaluated on a concrete input. -/

def natsOfString (s : String) : List Nat := s.length :: s.data.map Char.toNat

def readString : List Nat → Option (String × List Nat)
  | [] => none
  | len :: rest =>
    if len ≤ rest.length then
      some (⟨(rest.take len).map Char.ofNat⟩, rest.drop len)
    else none

def natsOfInt (i : Int) : List Nat :=
  if 0 ≤ i then [0, i.toNat] else [1, (-i - 1).toNat]

def readInt : List Nat → Option (Int × List Nat)
  | 0 :: m :: rest => some ((m : Int), rest)
  | 1 :: m :: rest => some (-(m : Int) - 1, rest)
  | _ => none

def natsOfDevice (d : Device) : List Nat :=
  natsOfInt d.id ++ natsOfString d.ip ++ natsOfString d.systemType ++
    natsOfInt d.port ++ natsOfString d.credentials.username ++
    natsOfString d.credentials.password

def readDevice (bs : List Nat) : Option (Device × List Nat) :=
  match readInt bs with
  | none => none
  | some (did, bs1) =>
    match readString bs1 with
    | none => none
    | some (ip, bs2) =>
      match readString bs2 with
      | none => none
      | some (st, bs3) =>
        match readInt bs3 with
        | none => none
        | some (port, bs4) =>
          match readString bs4 with
          | none => none
          | some (user, bs5) =>
            match readString bs5 with
            | none => none
            | some (pw, bs6) => some (⟨did, ip, st, port, ⟨user, pw⟩⟩, bs6)

def natsOfDevices (ds : List Device) : List Nat :=
  ds.length :: (ds.map natsOfDevice).flatten

def readDevicesAux : Nat → List Nat → Option (List Device)
  | 0, bs => if bs.isEmpty then some [] else none
  | n + 1, bs =>
    match readDevice bs with
    | none => none
    | some (d, rest) =>
      match readDevicesAux n rest with
      | none => none
      | some ds => some (d :: ds)

def readDevices : List Nat → Option (List Device)
  | [] => none
  | n :: bs => readDevicesAux n bs

theorem readString_natsOfString (s : String) (t : List Nat) :
    readString (natsOfString s ++ t) = some (s, t) := by
  obtain ⟨sd⟩ := s
  have hlen : String.length ⟨sd⟩ = (sd.map Char.toNat).length := by
    simp [String.length]
  have hle : String.length ⟨sd⟩ ≤ (sd.map Char.toNat ++ t).length := by
    simp [hlen]
  have htake : (sd.map Char.toNat ++ t).take (String.length ⟨sd⟩) = sd.map Char.toNat := by
    rw [hlen]
    exact List.take_left _ _
  have hdrop : (sd.map Char.toNat ++ t).drop (String.length ⟨sd⟩) = t := by
    rw [hlen]
    exact List.drop_left _ _
  have hmap : (sd.map Char.toNat).map Char.ofNat = sd := by
    rw [List.map_map]
    have : (Char.ofNat ∘ Char.toNat) = id := by
      funext c
      exact Char.ofNat_toNat c
    rw [this, List.map_id]
  simp only [natsOfString, readString, List.cons_append, hle, if_true, htake,
    hdrop, hmap]

theorem readInt_natsOfInt (i : Int) (t : List Nat) :
    readInt (natsOfInt i ++ t) = some (i, t) := by
  unfold natsOfInt
  by_cases h : 0 ≤ i
  · rw [if_pos h]
    simp only [List.cons_append, List.nil_append, readInt]
    rw [Int.toNat_of_nonneg h]
  · rw [if_neg h]
    simp only [List.cons_append, List.nil_append, readInt]
    have hnn : (0 : Int) ≤ -i - 1 := by omega
    rw [Int.toNat_of_nonneg hnn]
    congr 1
    congr 1
    omega

theorem readDevice_natsOfDevice (d : Device) (t : List Nat) :
    readDevice (natsOfDevice d ++ t) = some (d, t) := by
  obtain ⟨did, ip, st, port, ⟨user, pw⟩⟩ := d
  unfold natsOfDevice readDevice
  simp only [List.append_assoc, readInt_natsOfInt, readString_natsOfString]

theorem readDevicesAux_roundtrip (ds : List Device) :
    readDevicesAux ds.length ((ds.map natsOfDevice).flatten) = some ds := by
  induction ds with
  | nil => simp [readDevicesAux]
  | cons d rest ih =>
    simp only [List.length_cons, List.map_cons, List.flatten_cons, readDevicesAux,
      readDevice_natsOfDevice, ih]

theorem readDevices_natsOfDevices (ds : List Device) :
    readDevices (natsOfDevices ds) = some ds := by
  simp only [natsOfDevices, readDevices, readDevicesAux_roundtrip]

def concretePrims : EnvelopePrims :=
  { b64encode := id
    b64decode := some
    snappyEncode := id
    snappyDecode := some
    gcmSeal := fun _ _ p => p
    gcmOpen := fun _ _ c => some c
    jsonMarshalDevices := natsOfDevices
    jsonUnmarshalDevices := readDevices
    b64_rt := fun _ => rfl
    snappy_rt := fun _ => rfl
    gcm_rt := fun _ _ _ => rfl
    json_rt := readDevices_natsOfDevices }

def zeroKeyHex : String :=
  "0000000000000000000000000000000000000000000000000000000000000000"

def zeroKey : List Nat := List.replicate 32 0

def zeroNonce : List Nat := List.replicate 12 0

def sampleDevices : List Device :=
  [sampleDevice, ⟨2, "10.0.0.6", "windows", 0, ⟨"u2", "p2"⟩⟩]

/-- Witness for C2: the round-trip evaluated at a concrete device list,
the all-zero 32-byte key (as a 64-character hex string) and the all-zero
12-byte nonce, with the concrete lawful primitives. -/
theorem envelope_roundtrip_witness :
    decryptAndDecompressFile concretePrims zeroKeyHex
      (.ok (zeroNonce ++ natsOfDevices sampleDevices)) = .ok sampleDevices :=
  envelope_roundtrip concretePrims zeroKeyHex zeroKey zeroNonce sampleDevices
    (zeroNonce ++ natsOfDevices sampleDevices)
    (by decide) (by decide) (by decide) (by decide) rfl

/-! ## Configuration loading (config/config.go lines 23-74)

The configuration file is an external input, modelled as a source that is
either absent, unreadable, undecodable, or a decoded user configuration.
A user configuration mirrors the decoded JSON: a timeout (zero when
absent), an optional commands map (Go `nil` when the section is absent)
and a key (empty when absent). -/

structure UserConfig where
  sshTimeout : Int
  metricsCommands : Option (List (String × String))
  encryptionKey : String

inductive ConfigSource
  | missing
  | openFailed (e : String)
  | decodeFailed (e : String)
  | parsed (u : UserConfig)

/-- The built-in default commands of config.go lines 27-34. -/
def defaultCommands : List (String × String) :=
  [("hostname", "hostname"),
   ("uptime", "uptime -p"),
   ("cpu", "top -bn1 | grep \x27Cpu(s)\x27 | awk \x27\x7bprint $2 + $4\x7d\x27"),
   ("memory", "free -g | awk \x27/Mem:/ \x7bprint $3\x7d\x27"),
   ("disk", "df -BG / | awk \x27NR==2 \x7bprint $3\x7d\x27"),
   ("processes", "ps aux | wc -l")]

/-- Per-key merge of config.go lines 59-67: a present, non-empty user entry
overrides the default, anything else keeps the default. -/
def overrideVal (userCmds : List (String × String)) (k dflt : String) : String :=
  match userCmds.lookup k with
  | some userCmd => if userCmd ≠ "" then userCmd else dflt
  | none => dflt

/-- The merged command map: iterate over the default keys only (user keys
outside the defaults are dropped, as in the source); when the user has no
commands section, keep the defaults. -/
def mergeCommands : Option (List (String × String)) → List (String × String)
  | none => defaultCommands
  | some userCmds => defaultCommands.map (fun p => (p.1, overrideVal userCmds p.1 p.2))

/-- LoadConfig (config.go lines 23-74): defaults for a missing file, an
error for an unreadable or undecodable file, otherwise the merge of the
user configuration over the defaults (timeout only when positive, key only
when non-empty). -/
def LoadConfig : ConfigSource → Except String Config
  | .missing => .ok ⟨5, defaultCommands, ""⟩
  | .openFailed e => .error e
  | .decodeFailed e => .error e
  | .parsed u =>
    .ok ⟨if u.sshTimeout > 0 then u.sshTimeout else 5,
         mergeCommands u.metricsCommands,
         if u.encryptionKey ≠ "" then u.encryptionKey else ""⟩

theorem lookup_keyMap (g : String → String → String)
    (l : List (String × String)) (k : String) :
    (l.map (fun p => (p.1, g p.1 p.2))).lookup k = (l.lookup k).map (g k) := by
  induction l with
  | nil => simp
  | cons p rest ih =>
    by_cases h : k = p.1
    · simp [List.lookup, h]
    · have hb : (k == p.1) = false := by
        simp [h]
      simp [List.lookup, hb, ih]

/-- C9: LoadConfig merges the user configuration over safe defaults. A
missing file yields timeout 5, the six built-in commands and an empty key
(conjuncts 1-3); a positive user timeout overrides the default and a
non-positive one keeps 5 (conjuncts 4-5); per key, a present non-empty user
command overrides the default and an absent key keeps the default
(conjuncts 6-7); and an empty encryption key makes every batch decode fail
with the key error, regardless of the file content — including contents
that could not even be read (conjunct 8). -/
theorem config_defaults_and_merge :
    LoadConfig .missing = .ok ⟨5, defaultCommands, ""⟩ ∧
    defaultCommands.lookup "hostname" = some "hostname" ∧
    (defaultCommands.map Prod.fst) =
      ["hostname", "uptime", "cpu", "memory", "disk", "processes"] ∧
    (∀ u cfg, LoadConfig (.parsed u) = .ok cfg → 0 < u.sshTimeout →
      cfg.sshTimeout = u.sshTimeout) ∧
    (∀ u cfg, LoadConfig (.parsed u) = .ok cfg → ¬0 < u.sshTimeout →
      cfg.sshTimeout = 5) ∧
    (∀ userCmds k v, userCmds.lookup k = some v → v ≠ "" →
      (mergeCommands (some userCmds)).lookup k =
        (defaultCommands.lookup k).map (fun _ => v)) ∧
    (∀ userCmds k, userCmds.lookup k = none →
      (mergeCommands (some userCmds)).lookup k = defaultCommands.lookup k) ∧
    (∀ (P : EnvelopePrims) fileContent,
      decryptAndDecompressFile P "" fileContent =
        .error "encryption key not found in config") := by
  refine ⟨rfl, by decide, by decide, ?_, ?_, ?_, ?_, ?_⟩
  · intro u cfg hcfg hpos
    simp only [LoadConfig, Except.ok.injEq] at hcfg
    rw [← hcfg]
    simp [hpos]
  · intro u cfg hcfg hpos
    simp only [LoadConfig, Except.ok.injEq] at hcfg
    rw [← hcfg]
    simp [hpos]
  · intro userCmds k v hlook hne
    simp only [mergeCommands, lookup_keyMap]
    cases hdef : defaultCommands.lookup k with
    | none => simp
    | some dflt => simp [overrideVal, hlook, hne]
  · intro userCmds k hlook
    simp only [mergeCommands, lookup_keyMap]
    cases hdef : defaultCommands.lookup k with
    | none => simp
    | some dflt => simp [overrideVal, hlook]
  · intro P fileContent
    unfold decryptAndDecompressFile
    simp

/-- Witness for C9: concrete instances of the hypothesis-bearing
conjuncts. -/
theorem config_defaults_and_merge_witness :
    (LoadConfig (.parsed ⟨9, none, ""⟩)).map Config.sshTimeout = .ok 9 ∧
    (mergeCommands (some [("uptime", "uptime -s")])).lookup "uptime" =
      some "uptime -s" ∧
    (mergeCommands (some [("uptime", "uptime -s")])).lookup "cpu" =
      defaultCommands.lookup "cpu" ∧
    decryptAndDecompressFile concretePrims "" (.error "unreadable") =
      .error "encryption key not found in config" := by
  refine ⟨?_, ?_, ?_, ?_⟩
  · have h := config_defaults_and_merge.2.2.2.1 ⟨9, none, ""⟩
      ⟨9, mergeCommands none, ""⟩ rfl (by decide)
    simp only [LoadConfig, Except.map]
    exact congrArg Except.ok h
  · have h := config_defaults_and_merge.2.2.2.2.2.1 [("uptime", "uptime -s")]
      "uptime" "uptime -s" (by decide) (by decide)
    rw [h]
    decide
  · exact config_defaults_and_merge.2.2.2.2.2.2.1 [("uptime", "uptime -s")]
      "cpu" (by decide)
  · exact config_defaults_and_merge.2.2.2.2.2.2.2 concretePrims
      (.error "unreadable")

/-! ## Task orchestrator (cmd/main.go lines 152-273)

processMetrics and processDiscovery share one shape: a buffered result
channel, one producer goroutine per device each sending exactly one result
(the task body always returns one result; the per-task recover turns a
panic into an error result), then `wg.Wait()` — all producers finished —
followed by `close(resultChan)`, then the consumer drains the channel. The
model is a small-step machine over the channel: `produce` moves one pending
device's result to the queue tail (in any order — completion order is
arbitrary); `close` is enabled only when no producer is pending, mirroring
`wg.Wait(); close(resultChan)`; `consume` pops the queue head into the
consumed (printed) list. The result type is a parameter, so both modes are
covered; `run` gives the result a task produces for a device. -/

structure OrchState (α : Type) where
  pending : List Device
  queue : List α
  closed : Bool
  consumed : List α

def initOrch {α : Type} (devices : List Device) : OrchState α :=
  ⟨devices, [], false, []⟩

inductive OrchStep {α : Type} (run : Device → α) : OrchState α → OrchState α → Prop
  | produce (s : OrchState α) (d : Device) (hd : d ∈ s.pending) :
      OrchStep run s ⟨s.pending.erase d, s.queue ++ [run d], s.closed, s.consumed⟩
  | close (s : OrchState α) (hp : s.pending = []) (hc : s.closed = false) :
      OrchStep run s ⟨s.pending, s.queue, true, s.consumed⟩
  | consume (s : OrchState α) (r : α) (rest : List α) (hq : s.queue = r :: rest) :
      OrchStep run s ⟨s.pending, rest, s.closed, s.consumed ++ [r]⟩

/-- Invariant: the results still pending, queued and already consumed are,
up to permutation, exactly one result per input device; and the channel
can only be closed once no producer is pending. -/
def orchInv {α : Type} (run : Device → α) (devices : List Device)
    (s : OrchState α) : Prop :=
  List.Perm (s.pending.map run ++ s.queue ++ s.consumed) (devices.map run) ∧
  (s.closed = true → s.pending = [])

theorem orchStep_inv {α : Type} (run : Device → α)
    (devices : List Device) (s s' : OrchState α) (h : OrchStep run s s')
    (hinv : orchInv run devices s) : orchInv run devices s' := by
  rcases h with ⟨d, hd⟩ | ⟨hp, hc⟩ | ⟨r, rest, hq⟩
  · refine ⟨?_, fun hcl => ?_⟩
    · have hperm : List.Perm (s.pending.map run)
          (run d :: (s.pending.erase d).map run) :=
        (List.perm_cons_erase hd).map run
      have step1 : List.Perm ((s.pending.erase d).map run ++ (s.queue ++ [run d]))
          (s.pending.map run ++ s.queue) := by
        have e1 : (s.pending.erase d).map run ++ (s.queue ++ [run d])
            = ((s.pending.erase d).map run ++ s.queue) ++ [run d] := by
          rw [List.append_assoc]
        rw [e1]
        refine List.Perm.trans (List.perm_append_singleton _ _) ?_
        exact hperm.symm.append_right s.queue
      exact (step1.append_right s.consumed).trans hinv.1
    · have h0 : s.pending = [] := hinv.2 hcl
      simp [h0]
  · exact ⟨hinv.1, fun _ => hp⟩
  · refine ⟨?_, fun hcl => hinv.2 hcl⟩
    have inner : List.Perm (rest ++ (s.consumed ++ [r])) ((r :: rest) ++ s.consumed) := by
      have e1 : rest ++ (s.consumed ++ [r]) = (rest ++ s.consumed) ++ [r] := by
        rw [List.append_assoc]
      rw [e1]
      exact List.perm_append_singleton _ _
    have goal1 : List.Perm (s.pending.map run ++ rest ++ (s.consumed ++ [r]))
        (s.pending.map run ++ (r :: rest) ++ s.consumed) := by
      have e2 : s.pending.map run ++ rest ++ (s.consumed ++ [r])
          = s.pending.map run ++ (rest ++ (s.consumed ++ [r])) := by
        rw [List.append_assoc]
      have e3 : s.pending.map run ++ (r :: rest) ++ s.consumed
          = s.pending.map run ++ ((r :: rest) ++ s.consumed) := by
        rw [List.append_assoc]
      rw [e2, e3]
      exact inner.append_left _
    refine goal1.trans ?_
    rw [← hq]
    exact hinv.1

theorem orchInv_reach {α : Type} (run : Device → α)
    (devices : List Device) (s : OrchState α)
    (hreach : Relation.ReflTransGen (OrchStep run) (initOrch devices) s) :
    orchInv run devices s := by
  induction hreach with
  | refl => exact ⟨by simp [initOrch], by simp [initOrch]⟩
  | tail hsteps hstep ih => exact orchStep_inv run devices _ _ hstep ih

/-- C1: for an input list of N devices and any completion order — any
interleaving of the orchestrator steps — once the channel is closed (which
requires all producers to have finished first) and the consumer has fully
drained the queue, exactly N results have been consumed, and their IDs are
a permutation of the input device IDs: no device is silently dropped and no
phantom result appears. Instantiating `run` with the metrics or the
discovery task body (both of which stamp the device's ID into their result)
covers processMetrics and processDiscovery. -/
theorem orchestrator_cardinality {α : Type} (run : Device → α)
    (idOf : α → Int) (hid : ∀ d, idOf (run d) = d.id) (devices : List Device)
    (s : OrchState α)
    (hreach : Relation.ReflTransGen (OrchStep run) (initOrch devices) s)
    (hclosed : s.closed = true) (hqueue : s.queue = []) :
    s.consumed.length = devices.length ∧
    (s.consumed.map idOf).Perm (devices.map Device.id) := by
  have hinv := orchInv_reach run devices s hreach
  have hpend : s.pending = [] := hinv.2 hclosed
  have hbag := hinv.1
  rw [hpend, hqueue] at hbag
  simp only [List.map_nil, List.nil_append, List.append_nil] at hbag
  constructor
  · have hlen := hbag.length_eq
    simpa using hlen
  · have h2 : List.Perm (s.consumed.map idOf) ((devices.map run).map idOf) :=
      hbag.map idOf
    rw [List.map_map] at h2
    have h3 : devices.map (idOf ∘ run) = devices.map Device.id :=
      List.map_congr_left (fun d _ => hid d)
    rwa [h3] at h2

def devA : Device := ⟨1, "a", "linux", 22, ⟨"u", "p"⟩⟩

def devB : Device := ⟨2, "b", "linux", 22, ⟨"u", "p"⟩⟩

/-- The discovery task body used in the orchestrator witness: one result
per device, stamped with the device's ID. -/
def discRun : Device → DiscoveryResult := fun d => NewDiscoveryResult d.id true ""

def orchFinal : OrchState DiscoveryResult :=
  ⟨[], [], true, [discRun devB, discRun devA]⟩

/-- Witness for C1: a concrete two-device run completing out of input order
(device B first), closed after both producers finished and fully drained:
two results whose IDs are a permutation of the input IDs. -/
theorem orchestrator_cardinality_witness :
    orchFinal.consumed.length = [devA, devB].length ∧
    (orchFinal.consumed.map DiscoveryResult.id).Perm ([devA, devB].map Device.id) := by
  have h1 : OrchStep discRun (initOrch [devA, devB])
      ⟨[devA], [discRun devB], false, []⟩ :=
    OrchStep.produce _ devB (by decide)
  have h2 : OrchStep discRun ⟨[devA], [discRun devB], false, []⟩
      ⟨[], [discRun devB, discRun devA], false, []⟩ :=
    OrchStep.produce _ devA (by decide)
  have h3 : OrchStep discRun ⟨[], [discRun devB, discRun devA], false, []⟩
      ⟨[], [discRun devB, discRun devA], true, []⟩ :=
    OrchStep.close _ rfl rfl
  have h4 : OrchStep discRun ⟨[], [discRun devB, discRun devA], true, []⟩
      ⟨[], [discRun devA], true, [discRun devB]⟩ :=
    OrchStep.consume _ (discRun devB) [discRun devA] rfl
  have h5 : OrchStep discRun ⟨[], [discRun devA], true, [discRun devB]⟩
      orchFinal :=
    OrchStep.consume _ (discRun devA) [] rfl
  exact orchestrator_cardinality discRun DiscoveryResult.id (fun d => rfl)
    [devA, devB] orchFinal
    (.tail (.tail (.tail (.tail (.tail .refl h1) h2) h3) h4) h5) rfl rfl

end SshPlugin
